import Mathlib

/-!
Shallow embedding of `src/ilovepdf.py`, a client for the ILovePDF HTTP API.

Modelling choices:
* HTTP traffic is an oracle `Server : Nat → Response` giving the response the
  environment returns to the n-th HTTP request issued since the point under
  consideration; the sequence of outgoing requests is an explicit `Trace`.
* The session object `self` is the record `St`; Python attributes that may not
  have been assigned yet (`arquivos`, `tarefa`, `tarefa_id`, `servidor_url`)
  are `Option`s, and reading an unassigned one is an `AttributeError`.
* The local filesystem is an association list from paths to byte lists.
* Python exceptions are the `Outcome.err` results.  The mutual recursion
  between `_realizar_request` and `_novo_token` is bounded by fuel;
  `Outcome.diverge` records that the run needed more nested calls than the
  given bound (so divergence for every fuel models nontermination).
* `response.raise_for_status()` is modelled as raising exactly on a status
  outside the 2xx success range (redirects are resolved by the transport).
-/

namespace ILovePdf

/-- A JSON value as read from a response body (only the shapes the client reads). -/
inductive JsonVal where
  | str (s : String)
  | num (n : Int)
deriving DecidableEq

/-- Python f-string rendering of a JSON value. -/
def jstr : JsonVal → String
  | .str s => s
  | .num n => toString n

/-- An HTTP response as seen by the client: status code, body parsed as a JSON
object, and the raw body bytes (`response.content`). -/
structure Response where
  status_code : Nat
  jbody : List (String × JsonVal)
  content : List Nat
deriving DecidableEq

/-- The environment: the response the server gives to the n-th outgoing request. -/
abbrev Server := Nat → Response

/-- One element of `self.arquivos`: `{"server_filename": .., "filename": ..}`. -/
structure ArqEntry where
  server_filename : String
  filename : String
deriving DecidableEq

/-- The JSON body sent by `_processar`:
`{"task": .., "tool": .., "files": ..}` updated with the extra kwargs. -/
structure PJson where
  task : String
  tool : String
  files : List ArqEntry
  extra : List (String × JsonVal)
deriving DecidableEq

/-- The keyword arguments the source passes through to `requests.request`. -/
structure Kwargs where
  dat : List (String × String)
  files : List (String × List Nat)
  jsonB : Option PJson
deriving DecidableEq

/-- No keyword arguments. -/
def kw0 : Kwargs := ⟨[], [], none⟩

/-- An outgoing HTTP request: method, url, the headers merged in by the
wrapper, and the payload from the keyword arguments. -/
structure Request where
  metodo : String
  url : String
  headers : List (String × String)
  dat : List (String × String)
  files : List (String × List Nat)
  jsonB : Option PJson
deriving DecidableEq

/-- The sequence of outgoing HTTP requests, oldest first. -/
abbrev Trace := List Request

/-- The local filesystem: association list from paths to byte contents. -/
abbrev Fs := List (String × List Nat)

/-- Write `b` at path `p`, overwriting any existing file there. -/
def writeFs (fs : Fs) (p : String) (b : List Nat) : Fs := (p, b) :: fs

/-- Read the file at path `p`. -/
def readFs (fs : Fs) (p : String) : Option (List Nat) := fs.lookup p

/-- The Python exceptions the client can raise. -/
inductive PyError where
  | httpError (resp : Response)
  | keyError (k : String)
  | attributeError (a : String)
  | fileNotFoundError (p : String)
deriving DecidableEq

/-- Result of a call: normal return, an exception, or fuel exhaustion (the run
recursed deeper than the given bound). -/
inductive Outcome (α : Type) where
  | ok (a : α)
  | err (e : PyError)
  | diverge
deriving DecidableEq

/-- The session's mutable attributes (`self`). -/
structure St where
  base_url : String
  chave_publica : String
  chave_secreta : String
  headers : List (String × String)
  arquivos : Option (List ArqEntry)
  tarefa : Option String
  tarefa_id : Option String
  servidor_url : Option String
deriving DecidableEq

/-- Replace the stored secret key; used to state that it never influences requests. -/
def setSecret (st : St) (k : String) : St := { st with chave_secreta := k }

/-- Success range of `response.raise_for_status()`. -/
def is2xx (s : Nat) : Bool := decide (200 ≤ s) && decide (s < 300)

/-- The request `requests.request(metodo, url, headers=self.headers, **kwargs)` sends. -/
def mkReq (st : St) (metodo url : String) (kw : Kwargs) : Request :=
  ⟨metodo, url, st.headers, kw.dat, kw.files, kw.jsonB⟩

/-- The keyword arguments of the auth request: `data = {"public_key": pk}`. -/
def authKw (pk : String) : Kwargs := ⟨[("public_key", pk)], [], none⟩

/-- `_realizar_request`: issue the request with the stored headers and raise for a
non-success status; if the body's `status` field is 401, obtain a new token and
retry the same request.  The call to `_novo_token` in the 401 branch is inlined
(its body is the auth request followed by replacing `self.headers`) so that the
mutual recursion is structural on the fuel; `realizar_request_401_via_novo_token`
below shows the branch is exactly `_novo_token` followed by the retried call. -/
def realizar_request : Nat → Server → St → Trace → String → String → Kwargs →
    Outcome Response × St × Trace
  | 0, _, st, tr, _, _, _ => (.diverge, st, tr)
  | fuel+1, srv, st, tr, metodo, url, kw =>
    let resp := srv tr.length
    let tr1 := tr ++ [mkReq st metodo url kw]
    if is2xx resp.status_code then
      (.ok resp, st, tr1)
    else
      match resp.jbody.lookup "status" with
      | none => (.err (.keyError "status"), st, tr1)
      | some v =>
        if v = .num 401 then
          match realizar_request fuel srv st tr1 "POST" (st.base_url ++ "/auth")
              (authKw st.chave_publica) with
          | (.ok aresp, st1, tr2) =>
            match aresp.jbody.lookup "token" with
            | some tok =>
              realizar_request fuel srv
                { st1 with headers := [("Authorization", "Bearer " ++ jstr tok)] }
                tr2 metodo url kw
            | none => (.err (.keyError "token"), st1, tr2)
          | (.err e, st1, tr2) => (.err e, st1, tr2)
          | (.diverge, st1, tr2) => (.diverge, st1, tr2)
        else
          (.err (.httpError resp), st, tr1)

/-- `_novo_token`: request a fresh token from `{base}/auth` with body
`{"public_key": chave_publica}` and replace the stored headers wholesale with
`Authorization: Bearer <token>`. -/
def novo_token (fuel : Nat) (srv : Server) (st : St) (tr : Trace) :
    Outcome Unit × St × Trace :=
  match realizar_request fuel srv st tr "POST" (st.base_url ++ "/auth")
      (authKw st.chave_publica) with
  | (.ok resp, st1, tr1) =>
    match resp.jbody.lookup "token" with
    | some tok =>
      (.ok (), { st1 with headers := [("Authorization", "Bearer " ++ jstr tok)] }, tr1)
    | none => (.err (.keyError "token"), st1, tr1)
  | (.err e, st1, tr1) => (.err e, st1, tr1)
  | (.diverge, st1, tr1) => (.diverge, st1, tr1)

/-- The session state `__init__` builds before requesting the first token:
the base url, the two keys, and empty headers; no task attribute assigned yet. -/
def initSt (chave_publica chave_secreta : String) : St :=
  { base_url := "https://api.ilovepdf.com/v1", chave_publica := chave_publica,
    chave_secreta := chave_secreta, headers := [],
    arquivos := none, tarefa := none, tarefa_id := none, servidor_url := none }

/-- `__init__`: store the keys and the base url, start with empty headers, and
obtain the first token. -/
def init (fuel : Nat) (srv : Server) (chave_publica chave_secreta : String) :
    Outcome Unit × St × Trace :=
  novo_token fuel srv (initSt chave_publica chave_secreta) []

/-- `_nova_tarefa`: reset the file list, record the tool, ask `{base}/start/{tarefa}`
for the task id and the assigned server, and store the server url. -/
def nova_tarefa (fuel : Nat) (srv : Server) (st : St) (tr : Trace) (tarefa : String) :
    Outcome Unit × St × Trace :=
  let st0 : St := { st with arquivos := some [], tarefa := some tarefa }
  let url := st0.base_url ++ "/start/" ++ tarefa
  match realizar_request fuel srv st0 tr "GET" url kw0 with
  | (.ok resp, st1, tr1) =>
    match resp.jbody.lookup "server" with
    | none => (.err (.keyError "server"), st1, tr1)
    | some sv =>
      match resp.jbody.lookup "task" with
      | none => (.err (.keyError "task"), st1, tr1)
      | some tk =>
        (.ok (), { st1 with tarefa_id := some (jstr tk),
                            servidor_url := some ("https://" ++ jstr sv ++ "/v1") }, tr1)
  | (.err e, st1, tr1) => (.err e, st1, tr1)
  | (.diverge, st1, tr1) => (.diverge, st1, tr1)

/-- `_adicionar_arquivo`: upload the local file to `{servidor_url}/upload` with
`data = {"task": tarefa_id}` and append the returned `server_filename` together
with the local path to `self.arquivos`.  Reads of unassigned attributes raise
before any request is issued. -/
def adicionar_arquivo (fuel : Nat) (srv : Server) (st : St) (tr : Trace) (fs : Fs)
    (arquivo : String) : Outcome Unit × St × Trace :=
  match st.servidor_url with
  | none => (.err (.attributeError "servidor_url"), st, tr)
  | some surl =>
    let url := surl ++ "/upload"
    match st.tarefa_id with
    | none => (.err (.attributeError "tarefa_id"), st, tr)
    | some tid =>
      match readFs fs arquivo with
      | none => (.err (.fileNotFoundError arquivo), st, tr)
      | some bytes =>
        match realizar_request fuel srv st tr "POST" url
            ⟨[("task", tid)], [("file", bytes)], none⟩ with
        | (.ok resp, st1, tr1) =>
          match resp.jbody.lookup "server_filename" with
          | none => (.err (.keyError "server_filename"), st1, tr1)
          | some sf =>
            match st1.arquivos with
            | none => (.err (.attributeError "arquivos"), st1, tr1)
            | some arqs =>
              (.ok (), { st1 with arquivos := some (arqs ++ [⟨jstr sf, arquivo⟩]) }, tr1)
        | (.err e, st1, tr1) => (.err e, st1, tr1)
        | (.diverge, st1, tr1) => (.diverge, st1, tr1)

/-- `_processar`: post `{"task": .., "tool": .., "files": ..}` updated with the
kwargs to `{servidor_url}/process`; a 2xx response is success. -/
def processar (fuel : Nat) (srv : Server) (st : St) (tr : Trace)
    (kwargs : List (String × JsonVal)) : Outcome Unit × St × Trace :=
  match st.servidor_url with
  | none => (.err (.attributeError "servidor_url"), st, tr)
  | some surl =>
    let url := surl ++ "/process"
    match st.tarefa_id with
    | none => (.err (.attributeError "tarefa_id"), st, tr)
    | some tid =>
      match st.tarefa with
      | none => (.err (.attributeError "tarefa"), st, tr)
      | some tool =>
        match st.arquivos with
        | none => (.err (.attributeError "arquivos"), st, tr)
        | some arqs =>
          match realizar_request fuel srv st tr "POST" url
              ⟨[], [], some ⟨tid, tool, arqs, kwargs⟩⟩ with
          | (.ok _, st1, tr1) => (.ok (), st1, tr1)
          | (.err e, st1, tr1) => (.err e, st1, tr1)
          | (.diverge, st1, tr1) => (.diverge, st1, tr1)

/-- `_download`: fetch `{servidor_url}/download/{tarefa_id}` and only then open
the output path for writing and save `response.content` there. -/
def download (fuel : Nat) (srv : Server) (st : St) (tr : Trace) (fs : Fs)
    (arquivo_output : String) : Outcome Unit × St × Trace × Fs :=
  match st.servidor_url with
  | none => (.err (.attributeError "servidor_url"), st, tr, fs)
  | some surl =>
    match st.tarefa_id with
    | none => (.err (.attributeError "tarefa_id"), st, tr, fs)
    | some tid =>
      let url := surl ++ "/download/" ++ tid
      match realizar_request fuel srv st tr "GET" url kw0 with
      | (.ok resp, st1, tr1) => (.ok (), st1, tr1, writeFs fs arquivo_output resp.content)
      | (.err e, st1, tr1) => (.err e, st1, tr1, fs)
      | (.diverge, st1, tr1) => (.diverge, st1, tr1, fs)

/-- The default output path of `comprimir`: `arquivo_input[:-4] + "_compresso.pdf"`
(a Python slice keeping the first `len - 4` characters, all of them if `len < 4`). -/
def defaultOutput (arquivo_input : String) : String :=
  String.mk (arquivo_input.data.take (arquivo_input.data.length - 4)) ++ "_compresso.pdf"

/-- `comprimir`: derive the output path when none is given (Python
`if not arquivo_output` also treats the empty string as absent), then
start the task, upload, process, and download. -/
def comprimir (fuel : Nat) (srv : Server) (st : St) (tr : Trace) (fs : Fs)
    (arquivo_input : String) (arquivo_output : Option String) :
    Outcome Unit × St × Trace × Fs :=
  let outp := match arquivo_output with
    | none => defaultOutput arquivo_input
    | some s => if s = "" then defaultOutput arquivo_input else s
  match nova_tarefa fuel srv st tr "compress" with
  | (.ok _, st1, tr1) =>
    match adicionar_arquivo fuel srv st1 tr1 fs arquivo_input with
    | (.ok _, st2, tr2) =>
      match processar fuel srv st2 tr2 [] with
      | (.ok _, st3, tr3) => download fuel srv st3 tr3 fs outp
      | (.err e, st3, tr3) => (.err e, st3, tr3, fs)
      | (.diverge, st3, tr3) => (.diverge, st3, tr3, fs)
    | (.err e, st2, tr2) => (.err e, st2, tr2, fs)
    | (.diverge, st2, tr2) => (.diverge, st2, tr2, fs)
  | (.err e, st1, tr1) => (.err e, st1, tr1, fs)
  | (.diverge, st1, tr1) => (.diverge, st1, tr1, fs)

/-! ### Structural lemmas about the transport wrapper -/

/-- The transport wrapper only ever mutates `headers`: every other session
attribute is preserved. -/
theorem realizar_request_fields (fuel : Nat) (srv : Server) (st : St) (tr : Trace)
    (metodo url : String) (kw : Kwargs) :
    (realizar_request fuel srv st tr metodo url kw).2.1.base_url = st.base_url ∧
    (realizar_request fuel srv st tr metodo url kw).2.1.chave_publica = st.chave_publica ∧
    (realizar_request fuel srv st tr metodo url kw).2.1.chave_secreta = st.chave_secreta ∧
    (realizar_request fuel srv st tr metodo url kw).2.1.arquivos = st.arquivos ∧
    (realizar_request fuel srv st tr metodo url kw).2.1.tarefa = st.tarefa ∧
    (realizar_request fuel srv st tr metodo url kw).2.1.tarefa_id = st.tarefa_id ∧
    (realizar_request fuel srv st tr metodo url kw).2.1.servidor_url = st.servidor_url := by
  induction fuel generalizing st tr metodo url kw with
  | zero => simp [realizar_request]
  | succ n ih =>
    simp only [realizar_request]
    split
    · simp
    · split
      · simp
      · split
        · have h1 := ih st (tr ++ [mkReq st metodo url kw]) "POST"
            (st.base_url ++ "/auth") (authKw st.chave_publica)
          rcases hcall : realizar_request n srv st (tr ++ [mkReq st metodo url kw]) "POST"
              (st.base_url ++ "/auth") (authKw st.chave_publica) with ⟨o, st1, tr2⟩
          rw [hcall] at h1
          simp only at h1
          cases o with
          | ok aresp =>
            cases htok : List.lookup "token" aresp.jbody with
            | some tok =>
              simp only [htok]
              have h2 := ih { st1 with headers := [("Authorization", "Bearer " ++ jstr tok)] }
                tr2 metodo url kw
              simp only at h2
              exact ⟨h2.1.trans h1.1, h2.2.1.trans h1.2.1, h2.2.2.1.trans h1.2.2.1,
                h2.2.2.2.1.trans h1.2.2.2.1, h2.2.2.2.2.1.trans h1.2.2.2.2.1,
                h2.2.2.2.2.2.1.trans h1.2.2.2.2.2.1, h2.2.2.2.2.2.2.trans h1.2.2.2.2.2.2⟩
            | none => simpa [htok] using h1
          | err e => simpa using h1
          | diverge => simpa using h1
        · simp

/-- The transport wrapper only appends to the request trace. -/
theorem realizar_request_trace (fuel : Nat) (srv : Server) (st : St) (tr : Trace)
    (metodo url : String) (kw : Kwargs) :
    ∃ ext : Trace, (realizar_request fuel srv st tr metodo url kw).2.2 = tr ++ ext := by
  induction fuel generalizing st tr metodo url kw with
  | zero => exact ⟨[], by simp [realizar_request]⟩
  | succ n ih =>
    simp only [realizar_request]
    split
    · exact ⟨[mkReq st metodo url kw], rfl⟩
    · split
      · exact ⟨[mkReq st metodo url kw], rfl⟩
      · split
        · obtain ⟨e1, he1⟩ := ih st (tr ++ [mkReq st metodo url kw]) "POST"
            (st.base_url ++ "/auth") (authKw st.chave_publica)
          rcases hcall : realizar_request n srv st (tr ++ [mkReq st metodo url kw]) "POST"
              (st.base_url ++ "/auth") (authKw st.chave_publica) with ⟨o, st1, tr2⟩
          rw [hcall] at he1
          simp only at he1
          cases o with
          | ok aresp =>
            cases htok : List.lookup "token" aresp.jbody with
            | some tok =>
              simp only [htok]
              obtain ⟨e2, he2⟩ := ih
                { st1 with headers := [("Authorization", "Bearer " ++ jstr tok)] }
                tr2 metodo url kw
              exact ⟨mkReq st metodo url kw :: (e1 ++ e2), by rw [he2, he1]; simp⟩
            | none => exact ⟨mkReq st metodo url kw :: e1, by simp [htok, he1]⟩
          | err e => exact ⟨mkReq st metodo url kw :: e1, by simp [he1]⟩
          | diverge => exact ⟨mkReq st metodo url kw :: e1, by simp [he1]⟩
        · exact ⟨[mkReq st metodo url kw], rfl⟩

/-- With at least one unit of fuel, the first request the wrapper sends is the
caller's request, built with the current headers. -/
theorem realizar_request_trace_succ (fuel : Nat) (srv : Server) (st : St) (tr : Trace)
    (metodo url : String) (kw : Kwargs) :
    ∃ ext : Trace, (realizar_request (fuel + 1) srv st tr metodo url kw).2.2 =
      tr ++ mkReq st metodo url kw :: ext := by
  simp only [realizar_request]
  split
  · exact ⟨[], rfl⟩
  · split
    · exact ⟨[], rfl⟩
    · split
      · obtain ⟨e1, he1⟩ := realizar_request_trace fuel srv st
          (tr ++ [mkReq st metodo url kw]) "POST" (st.base_url ++ "/auth")
          (authKw st.chave_publica)
        rcases hcall : realizar_request fuel srv st (tr ++ [mkReq st metodo url kw]) "POST"
            (st.base_url ++ "/auth") (authKw st.chave_publica) with ⟨o, st1, tr2⟩
        rw [hcall] at he1
        simp only at he1
        cases o with
        | ok aresp =>
          cases htok : List.lookup "token" aresp.jbody with
          | some tok =>
            simp only [htok]
            obtain ⟨e2, he2⟩ := realizar_request_trace fuel srv
              { st1 with headers := [("Authorization", "Bearer " ++ jstr tok)] }
              tr2 metodo url kw
            exact ⟨e1 ++ e2, by rw [he2, he1]; simp⟩
          | none => exact ⟨e1, by simp [htok, he1]⟩
        | err e => exact ⟨e1, by simp [he1]⟩
        | diverge => exact ⟨e1, by simp [he1]⟩
      · exact ⟨[], rfl⟩

/-- The inlined 401 branch of `realizar_request` is exactly `_novo_token`
followed by the retried request, as in the source. -/
theorem realizar_request_401_via_novo_token (fuel : Nat) (srv : Server) (st : St)
    (tr : Trace) (metodo url : String) (kw : Kwargs)
    (h1 : is2xx (srv tr.length).status_code = false)
    (h2 : List.lookup "status" (srv tr.length).jbody = some (JsonVal.num 401)) :
    realizar_request (fuel + 1) srv st tr metodo url kw =
      match novo_token fuel srv st (tr ++ [mkReq st metodo url kw]) with
      | (Outcome.ok _, st1, tr1) => realizar_request fuel srv st1 tr1 metodo url kw
      | (Outcome.err e, st1, tr1) => (Outcome.err e, st1, tr1)
      | (Outcome.diverge, st1, tr1) => (Outcome.diverge, st1, tr1) := by
  simp only [realizar_request, novo_token, h1, h2, Bool.false_eq_true, if_false]
  rcases hcall : realizar_request fuel srv st (tr ++ [mkReq st metodo url kw]) "POST"
      (st.base_url ++ "/auth") (authKw st.chave_publica) with ⟨o, st1, tr2⟩
  cases o with
  | ok aresp =>
    cases htok : List.lookup "token" aresp.jbody with
    | some tok => simp [htok]
    | none => simp [htok]
  | err e => rfl
  | diverge => rfl

/-! ### The secret key is dead data -/

@[simp] theorem setSecret_base_url (st : St) (k : String) :
    (setSecret st k).base_url = st.base_url := rfl

@[simp] theorem setSecret_chave_publica (st : St) (k : String) :
    (setSecret st k).chave_publica = st.chave_publica := rfl

@[simp] theorem setSecret_headers (st : St) (k : String) :
    (setSecret st k).headers = st.headers := rfl

@[simp] theorem setSecret_arquivos (st : St) (k : String) :
    (setSecret st k).arquivos = st.arquivos := rfl

@[simp] theorem setSecret_tarefa (st : St) (k : String) :
    (setSecret st k).tarefa = st.tarefa := rfl

@[simp] theorem setSecret_tarefa_id (st : St) (k : String) :
    (setSecret st k).tarefa_id = st.tarefa_id := rfl

@[simp] theorem setSecret_servidor_url (st : St) (k : String) :
    (setSecret st k).servidor_url = st.servidor_url := rfl

@[simp] theorem mkReq_setSecret (st : St) (k : String) (metodo url : String) (kw : Kwargs) :
    mkReq (setSecret st k) metodo url kw = mkReq st metodo url kw := rfl

theorem setSecret_with_headers (st : St) (k : String) (h : List (String × String)) :
    { setSecret st k with headers := h } = setSecret { st with headers := h } k := rfl

/-- The stored secret key is dead data for the transport wrapper: running it
with a different secret gives the same outcome and the same trace, and a final
state differing only in the stored secret. -/
theorem realizar_request_setSecret (fuel : Nat) (srv : Server) (st : St) (tr : Trace)
    (metodo url : String) (kw : Kwargs) (k : String) :
    realizar_request fuel srv (setSecret st k) tr metodo url kw =
      ((realizar_request fuel srv st tr metodo url kw).1,
       setSecret (realizar_request fuel srv st tr metodo url kw).2.1 k,
       (realizar_request fuel srv st tr metodo url kw).2.2) := by
  induction fuel generalizing st tr metodo url kw with
  | zero => rfl
  | succ n ih =>
    simp only [realizar_request, setSecret_base_url, setSecret_chave_publica, mkReq_setSecret]
    split
    · rfl
    · split
      · rfl
      · split
        · rw [ih st (tr ++ [mkReq st metodo url kw]) "POST"
            (st.base_url ++ "/auth") (authKw st.chave_publica)]
          rcases hcall : realizar_request n srv st (tr ++ [mkReq st metodo url kw]) "POST"
              (st.base_url ++ "/auth") (authKw st.chave_publica) with ⟨o, st1, tr2⟩
          cases o with
          | ok aresp =>
            cases htok : List.lookup "token" aresp.jbody with
            | some tok =>
              simp only [htok]
              rw [setSecret_with_headers,
                ih { st1 with headers := [("Authorization", "Bearer " ++ jstr tok)] }
                  tr2 metodo url kw]
            | none => simp [htok]
          | err e => rfl
          | diverge => rfl
        · rfl

theorem setSecret_with_task (st : St) (k : String) (a : Option (List ArqEntry))
    (t : Option String) :
    { setSecret st k with arquivos := a, tarefa := t } =
      setSecret { st with arquivos := a, tarefa := t } k := rfl

theorem setSecret_with_ids (st : St) (k : String) (tid surl : Option String) :
    { setSecret st k with tarefa_id := tid, servidor_url := surl } =
      setSecret { st with tarefa_id := tid, servidor_url := surl } k := rfl

theorem setSecret_with_arquivos (st : St) (k : String) (a : Option (List ArqEntry)) :
    { setSecret st k with arquivos := a } = setSecret { st with arquivos := a } k := rfl

theorem initSt_setSecret (pk sk k : String) : setSecret (initSt pk sk) k = initSt pk k := rfl

/-- `_novo_token` never reads the secret key. -/
theorem novo_token_setSecret (fuel : Nat) (srv : Server) (st : St) (tr : Trace) (k : String) :
    novo_token fuel srv (setSecret st k) tr =
      ((novo_token fuel srv st tr).1, setSecret (novo_token fuel srv st tr).2.1 k,
       (novo_token fuel srv st tr).2.2) := by
  simp only [novo_token, setSecret_base_url, setSecret_chave_publica]
  rw [realizar_request_setSecret]
  rcases hcall : realizar_request fuel srv st tr "POST" (st.base_url ++ "/auth")
      (authKw st.chave_publica) with ⟨o, st1, tr2⟩
  cases o with
  | ok aresp =>
    cases htok : List.lookup "token" aresp.jbody with
    | some tok => simp only [htok]; rfl
    | none => simp [htok]
  | err e => rfl
  | diverge => rfl

/-- `_nova_tarefa` never reads the secret key. -/
theorem nova_tarefa_setSecret (fuel : Nat) (srv : Server) (st : St) (tr : Trace)
    (tool k : String) :
    nova_tarefa fuel srv (setSecret st k) tr tool =
      ((nova_tarefa fuel srv st tr tool).1,
       setSecret (nova_tarefa fuel srv st tr tool).2.1 k,
       (nova_tarefa fuel srv st tr tool).2.2) := by
  simp only [nova_tarefa]
  rw [setSecret_with_task, realizar_request_setSecret]
  simp only [setSecret_base_url]
  rcases hcall : realizar_request fuel srv { st with arquivos := some [], tarefa := some tool }
      tr "GET" (st.base_url ++ "/start/" ++ tool) kw0 with ⟨o, st1, tr2⟩
  cases o with
  | ok resp =>
    cases hsv : List.lookup "server" resp.jbody with
    | some sv =>
      cases htk : List.lookup "task" resp.jbody with
      | some tk => simp only [hsv, htk]; rfl
      | none => simp [hsv, htk]
    | none => simp [hsv]
  | err e => rfl
  | diverge => rfl

/-- `_adicionar_arquivo` never reads the secret key. -/
theorem adicionar_arquivo_setSecret (fuel : Nat) (srv : Server) (st : St) (tr : Trace)
    (fs : Fs) (arquivo k : String) :
    adicionar_arquivo fuel srv (setSecret st k) tr fs arquivo =
      ((adicionar_arquivo fuel srv st tr fs arquivo).1,
       setSecret (adicionar_arquivo fuel srv st tr fs arquivo).2.1 k,
       (adicionar_arquivo fuel srv st tr fs arquivo).2.2) := by
  simp only [adicionar_arquivo, setSecret_servidor_url, setSecret_tarefa_id]
  cases hsu : st.servidor_url with
  | none => simp [hsu]
  | some surl =>
    simp only [hsu]
    cases hti : st.tarefa_id with
    | none => simp
    | some tid =>
      simp only [hti]
      cases hrd : readFs fs arquivo with
      | none => simp
      | some bytes =>
        simp only [hrd]
        rw [realizar_request_setSecret]
        rcases hcall : realizar_request fuel srv st tr "POST" (surl ++ "/upload")
            ⟨[("task", tid)], [("file", bytes)], none⟩ with ⟨o, st1, tr2⟩
        cases o with
        | ok resp =>
          cases hsf : List.lookup "server_filename" resp.jbody with
          | none => simp [hsf]
          | some sf =>
            simp only [hsf, setSecret_arquivos]
            cases harq : st1.arquivos with
            | none => simp [harq]
            | some arqs => simp only [harq]; rfl
        | err e => rfl
        | diverge => rfl

/-- `_processar` never reads the secret key. -/
theorem processar_setSecret (fuel : Nat) (srv : Server) (st : St) (tr : Trace)
    (kwargs : List (String × JsonVal)) (k : String) :
    processar fuel srv (setSecret st k) tr kwargs =
      ((processar fuel srv st tr kwargs).1,
       setSecret (processar fuel srv st tr kwargs).2.1 k,
       (processar fuel srv st tr kwargs).2.2) := by
  simp only [processar, setSecret_servidor_url, setSecret_tarefa_id, setSecret_tarefa,
    setSecret_arquivos]
  cases hsu : st.servidor_url with
  | none => simp
  | some surl =>
    simp only
    cases hti : st.tarefa_id with
    | none => simp
    | some tid =>
      simp only
      cases hta : st.tarefa with
      | none => simp
      | some tool =>
        simp only
        cases harq : st.arquivos with
        | none => simp
        | some arqs =>
          simp only
          rw [realizar_request_setSecret]
          rcases hcall : realizar_request fuel srv st tr "POST" (surl ++ "/process")
              ⟨[], [], some ⟨tid, tool, arqs, kwargs⟩⟩ with ⟨o, st1, tr2⟩
          cases o with
          | ok resp => rfl
          | err e => rfl
          | diverge => rfl

/-- `_download` never reads the secret key. -/
theorem download_setSecret (fuel : Nat) (srv : Server) (st : St) (tr : Trace)
    (fs : Fs) (arquivo_output k : String) :
    download fuel srv (setSecret st k) tr fs arquivo_output =
      ((download fuel srv st tr fs arquivo_output).1,
       setSecret (download fuel srv st tr fs arquivo_output).2.1 k,
       (download fuel srv st tr fs arquivo_output).2.2.1,
       (download fuel srv st tr fs arquivo_output).2.2.2) := by
  simp only [download, setSecret_servidor_url, setSecret_tarefa_id]
  cases hsu : st.servidor_url with
  | none => simp
  | some surl =>
    simp only
    cases hti : st.tarefa_id with
    | none => simp
    | some tid =>
      simp only
      rw [realizar_request_setSecret]
      rcases hcall : realizar_request fuel srv st tr "GET" (surl ++ "/download/" ++ tid) kw0
        with ⟨o, st1, tr2⟩
      cases o with
      | ok resp => rfl
      | err e => rfl
      | diverge => rfl

/-- `comprimir` never reads the secret key. -/
theorem comprimir_setSecret (fuel : Nat) (srv : Server) (st : St) (tr : Trace) (fs : Fs)
    (arquivo_input : String) (arquivo_output : Option String) (k : String) :
    comprimir fuel srv (setSecret st k) tr fs arquivo_input arquivo_output =
      ((comprimir fuel srv st tr fs arquivo_input arquivo_output).1,
       setSecret (comprimir fuel srv st tr fs arquivo_input arquivo_output).2.1 k,
       (comprimir fuel srv st tr fs arquivo_input arquivo_output).2.2.1,
       (comprimir fuel srv st tr fs arquivo_input arquivo_output).2.2.2) := by
  simp only [comprimir]
  rw [nova_tarefa_setSecret]
  rcases h1 : nova_tarefa fuel srv st tr "compress" with ⟨o1, st1, tr1⟩
  cases o1 with
  | ok u =>
    simp only
    rw [adicionar_arquivo_setSecret]
    rcases h2 : adicionar_arquivo fuel srv st1 tr1 fs arquivo_input with ⟨o2, st2, tr2⟩
    cases o2 with
    | ok u2 =>
      simp only
      rw [processar_setSecret]
      rcases h3 : processar fuel srv st2 tr2 [] with ⟨o3, st3, tr3⟩
      cases o3 with
      | ok u3 => simp only; rw [download_setSecret]
      | err e => rfl
      | diverge => rfl
    | err e => rfl
    | diverge => rfl
  | err e => rfl
  | diverge => rfl

/-! ### Concrete fixtures for witnesses and counterexamples -/

/-- A server that always answers 200 with an empty JSON body and no content. -/
def srv200 : Server := fun _ => ⟨200, [], []⟩

/-- A server whose every response is HTTP 400 with JSON body `{"status": 401}`. -/
def srv401 : Server := fun _ => ⟨400, [("status", JsonVal.num 401)], []⟩

/-- A server answering: expired-token 401, then a fresh token, then success. -/
def srvExpired : Server := fun n =>
  if n = 0 then ⟨401, [("status", JsonVal.num 401)], []⟩
  else if n = 1 then ⟨200, [("token", JsonVal.str "T2")], []⟩
  else ⟨200, [], [1]⟩

/-- A server answering a full successful session in order:
auth, start, upload, process, download. -/
def srvOk : Server := fun n =>
  if n = 0 then ⟨200, [("token", JsonVal.str "T")], []⟩
  else if n = 1 then ⟨200, [("server", JsonVal.str "srv1"), ("task", JsonVal.str "task1")], []⟩
  else if n = 2 then ⟨200, [("server_filename", JsonVal.str "sf1")], []⟩
  else if n = 3 then ⟨200, [], []⟩
  else ⟨200, [], [7, 8, 9]⟩

/-- A server that always answers the start-task call. -/
def srvStart : Server := fun _ =>
  ⟨200, [("server", JsonVal.str "s2"), ("task", JsonVal.str "t2")], []⟩

/-- A session with a started `compress` task and no uploaded files. -/
def stStarted : St :=
  { base_url := "https://api.ilovepdf.com/v1", chave_publica := "PK", chave_secreta := "SK",
    headers := [("Authorization", "Bearer T")], arquivos := some [],
    tarefa := some "compress", tarefa_id := some "task1",
    servidor_url := some "https://srv1/v1" }

/-- A session carrying a stale task with an uploaded file, about to be overwritten. -/
def stDirty : St :=
  { base_url := "https://api.ilovepdf.com/v1", chave_publica := "PK", chave_secreta := "SK",
    headers := [("Authorization", "Bearer T")],
    arquivos := some [⟨"old_sf", "old.pdf"⟩], tarefa := some "merge",
    tarefa_id := some "t0", servidor_url := some "https://old/v1" }

/-! ### The claims -/

/-- C1: a call to the request wrapper whose response has a non-2xx status and a JSON
body with `status = 401`, when the re-authentication succeeds with a fresh token and
the retried request succeeds, performs exactly one re-authentication call (a single
POST to `{base}/auth`, after which the stored Authorization header is the fresh
Bearer token) and then exactly one retry with the same method, url and options, and
hands the caller only the retried request's successful response: the whole exchange
appends exactly three requests to the trace. -/
theorem c1_401_single_reauth_and_retry (k : Nat) (srv : Server) (st : St) (tr : Trace)
    (metodo url : String) (kw : Kwargs) (tok : JsonVal)
    (h0s : is2xx (srv tr.length).status_code = false)
    (h0j : List.lookup "status" (srv tr.length).jbody = some (JsonVal.num 401))
    (h1s : is2xx (srv (tr.length + 1)).status_code = true)
    (h1t : List.lookup "token" (srv (tr.length + 1)).jbody = some tok)
    (h2s : is2xx (srv (tr.length + 2)).status_code = true) :
    realizar_request (k + 2) srv st tr metodo url kw =
      (Outcome.ok (srv (tr.length + 2)),
       { st with headers := [("Authorization", "Bearer " ++ jstr tok)] },
       tr ++ [mkReq st metodo url kw,
              mkReq st "POST" (st.base_url ++ "/auth") (authKw st.chave_publica),
              mkReq { st with headers := [("Authorization", "Bearer " ++ jstr tok)] }
                metodo url kw]) := by
  have h2s' : is2xx (srv (tr.length + 1 + 1)).status_code = true := by
    rw [Nat.add_assoc]; exact h2s
  have e2 : k + 2 = (k + 1) + 1 := rfl
  rw [e2]
  simp [realizar_request, h0s, h0j, h1s, h1t, h2s', List.length_append, Nat.add_assoc]

/-- Witness for C1: a concrete expired-token exchange. -/
theorem c1_401_single_reauth_and_retry_witness :
    realizar_request 2 srvExpired stStarted [] "GET" "https://srv1/v1/process" kw0 =
      (Outcome.ok (srvExpired 2),
       { stStarted with headers := [("Authorization", "Bearer " ++ jstr (JsonVal.str "T2"))] },
       [mkReq stStarted "GET" "https://srv1/v1/process" kw0,
        mkReq stStarted "POST" (stStarted.base_url ++ "/auth") (authKw stStarted.chave_publica),
        mkReq { stStarted with
                headers := [("Authorization", "Bearer " ++ jstr (JsonVal.str "T2"))] }
          "GET" "https://srv1/v1/process" kw0]) :=
  c1_401_single_reauth_and_retry 0 srvExpired stStarted [] "GET" "https://srv1/v1/process"
    kw0 (JsonVal.str "T2") (by decide) (by decide) (by decide) (by decide) (by decide)

/-- C2 is violated by the code: against a server that answers every request —
including each retried one — with a non-2xx status and JSON body `{"status": 401}`,
the wrapper never returns, for any bound on the recursion depth: each 401 triggers a
further re-authentication and retry, so the run exhausts every fuel.  The bounded
retry the claim demands does not exist in the code. -/
theorem c2_persistent_401_never_returns (srv : Server)
    (hA : ∀ n, is2xx (srv n).status_code = false)
    (hB : ∀ n, List.lookup "status" (srv n).jbody = some (JsonVal.num 401)) :
    ∀ (fuel : Nat) (st : St) (tr : Trace) (metodo url : String) (kw : Kwargs),
      (realizar_request fuel srv st tr metodo url kw).1 = Outcome.diverge := by
  intro fuel
  induction fuel with
  | zero => intro st tr metodo url kw; rfl
  | succ n ih =>
    intro st tr metodo url kw
    simp only [realizar_request, hA, hB, Bool.false_eq_true, if_false]
    have hrec := ih st (tr ++ [mkReq st metodo url kw]) "POST"
      (st.base_url ++ "/auth") (authKw st.chave_publica)
    rcases hcall : realizar_request n srv st (tr ++ [mkReq st metodo url kw]) "POST"
        (st.base_url ++ "/auth") (authKw st.chave_publica) with ⟨o, st1, tr2⟩
    rw [hcall] at hrec
    simp only at hrec
    subst hrec
    rfl

/-- Witness for C2 at the concrete persistently-401 server. -/
theorem c2_persistent_401_never_returns_witness :
    (realizar_request 7 srv401 stStarted [] "GET" "https://srv1/v1/process" kw0).1 =
      Outcome.diverge :=
  c2_persistent_401_never_returns srv401 (fun _ => rfl) (fun _ => rfl)
    7 stStarted [] "GET" "https://srv1/v1/process" kw0

/-- C3: in the Idle state (no task started, so `servidor_url` was never assigned),
`_adicionar_arquivo` fails at once with the state-machine precondition violation —
the read of the unassigned `servidor_url` attribute — leaving the session unchanged
and issuing no HTTP request (the trace does not grow). -/
theorem c3_addfile_idle_fails_without_request (fuel : Nat) (srv : Server) (st : St)
    (tr : Trace) (fs : Fs) (p : String) (hIdle : st.servidor_url = none) :
    adicionar_arquivo fuel srv st tr fs p =
      (Outcome.err (PyError.attributeError "servidor_url"), st, tr) := by
  simp [adicionar_arquivo, hIdle]

/-- Witness for C3: a freshly constructed session is Idle. -/
theorem c3_addfile_idle_fails_without_request_witness :
    (initSt "PK" "SK").servidor_url = none ∧
    adicionar_arquivo 3 srv200 (initSt "PK" "SK") [] [] "f.pdf" =
      (Outcome.err (PyError.attributeError "servidor_url"), initSt "PK" "SK", []) :=
  ⟨by decide, c3_addfile_idle_fails_without_request 3 srv200 (initSt "PK" "SK") [] []
    "f.pdf" (by decide)⟩

/-- C4 as stated is false on the code: with a started task and an *empty*
uploaded-file list, `_processar` does not fail and does send a request: at this
concrete session it returns success and its trace gains one process request. -/
theorem c4_counterexample_process_empty_sends :
    (processar 1 srv200 stStarted [] []).1 = Outcome.ok () ∧
    (processar 1 srv200 stStarted [] []).2.2 =
      [mkReq stStarted "POST" "https://srv1/v1/process"
        ⟨[], [], some ⟨"task1", "compress", [], []⟩⟩] := by
  constructor
  · decide
  · decide

/-- C4 amended: `_processar` performs no client-side check that a file has been
uploaded.  With a started task and an empty uploaded-file list it does not fail
immediately: it sends exactly one process request whose JSON body carries
`files = []` to the processing server, and succeeds if the server answers 2xx. -/
theorem c4_amended_process_empty_sends_request (k : Nat) (srv : Server) (st : St)
    (tr : Trace) (surl tid tool : String)
    (h1 : st.servidor_url = some surl) (h2 : st.tarefa_id = some tid)
    (h3 : st.tarefa = some tool) (h4 : st.arquivos = some [])
    (hok : is2xx (srv tr.length).status_code = true) :
    processar (k + 1) srv st tr [] =
      (Outcome.ok (), st,
       tr ++ [mkReq st "POST" (surl ++ "/process") ⟨[], [], some ⟨tid, tool, [], []⟩⟩]) := by
  simp [processar, h1, h2, h3, h4, realizar_request, hok]

/-- Witness for the amended C4. -/
theorem c4_amended_process_empty_sends_request_witness :
    stStarted.arquivos = some [] ∧
    processar 1 srv200 stStarted [] [] =
      (Outcome.ok (), stStarted,
       [mkReq stStarted "POST" ("https://srv1/v1" ++ "/process")
         ⟨[], [], some ⟨"task1", "compress", [], []⟩⟩]) :=
  ⟨by decide, c4_amended_process_empty_sends_request 0 srv200 stStarted []
    "https://srv1/v1" "task1" "compress" (by decide) (by decide) (by decide) (by decide)
    (by decide)⟩

/-- C5: with no explicit output path, `comprimir` derives the default as the input
path with its final 4 characters removed and `_compresso.pdf` appended: for any
input of the form `q ++ r` with `r` of length 4 the default output is
`q ++ "_compresso.pdf"`; concretely `"report.pdf"` yields
`"report_compresso.pdf"` and `"a.PDF"` yields `"a_compresso.pdf"`. -/
theorem c5_default_output_drops_last_four (q r : String) (hr : r.length = 4) :
    defaultOutput (q ++ r) = q ++ "_compresso.pdf" ∧
    defaultOutput "report.pdf" = "report_compresso.pdf" ∧
    defaultOutput "a.PDF" = "a_compresso.pdf" := by
  refine ⟨?_, rfl, rfl⟩
  have hd : r.data.length = 4 := hr
  show String.mk ((q ++ r).data.take ((q ++ r).data.length - 4)) ++ "_compresso.pdf" =
    q ++ "_compresso.pdf"
  rw [show (q ++ r).data = q.data ++ r.data from rfl, List.length_append, hd,
    Nat.add_sub_cancel, List.take_left]

/-- Witness for C5 at the decomposition "report" ++ ".pdf". -/
theorem c5_default_output_drops_last_four_witness :
    String.length ".pdf" = 4 ∧
    defaultOutput ("report" ++ ".pdf") = "report" ++ "_compresso.pdf" :=
  ⟨by decide, (c5_default_output_drops_last_four "report" ".pdf" (by decide)).1⟩



/-- Download-only server: answers 200 with binary content `[9, 9, 9]`. -/
def srvDl : Server := fun _ => ⟨200, [], [9, 9, 9]⟩

/-- A server that always answers HTTP 500 with JSON body `{"status": 500}`. -/
def srv500 : Server := fun _ => ⟨500, [("status", JsonVal.num 500)], []⟩

/-- `stDirty` after `_nova_tarefa` has reset the file list and recorded the tool. -/
def stReset : St := { stDirty with arquivos := some [], tarefa := some "compress" }

/-- C6: constructing a session whose auth call is answered 2xx with a token performs
exactly one HTTP call — a POST to `{base}/auth` whose body carries only the public
key, sent with the still-empty header map — and stores the returned token, so that
every request subsequently issued by the session carries
`Authorization: Bearer <token>`. -/
theorem c6_init_one_auth_call_stores_bearer (k : Nat) (srv : Server) (pk sk : String)
    (tok : JsonVal)
    (hs : is2xx (srv 0).status_code = true)
    (ht : List.lookup "token" (srv 0).jbody = some tok) :
    init (k + 1) srv pk sk =
      (Outcome.ok (),
       { initSt pk sk with headers := [("Authorization", "Bearer " ++ jstr tok)] },
       [⟨"POST", (initSt pk sk).base_url ++ "/auth", [], [("public_key", pk)], [], none⟩]) ∧
    (∀ (k' : Nat) (srv' : Server) (tr' : Trace) (metodo url : String) (kw : Kwargs),
      ∃ ext : Trace,
        (realizar_request (k' + 1) srv' (init (k + 1) srv pk sk).2.1 tr' metodo url kw).2.2 =
          tr' ++ ⟨metodo, url, [("Authorization", "Bearer " ++ jstr tok)],
                  kw.dat, kw.files, kw.jsonB⟩ :: ext) := by
  have h1 : init (k + 1) srv pk sk =
      (Outcome.ok (),
       { initSt pk sk with headers := [("Authorization", "Bearer " ++ jstr tok)] },
       [⟨"POST", (initSt pk sk).base_url ++ "/auth", [], [("public_key", pk)], [], none⟩]) := by
    simp [init, novo_token, realizar_request, hs, ht, mkReq, authKw, initSt]
  refine ⟨h1, ?_⟩
  intro k' srv' tr' metodo url kw
  obtain ⟨ext, hext⟩ := realizar_request_trace_succ k' srv'
    ((init (k + 1) srv pk sk).2.1) tr' metodo url kw
  refine ⟨ext, ?_⟩
  rw [hext, h1]
  simp [mkReq]

/-- Witness for C6 at the concrete successful server. -/
theorem c6_init_one_auth_call_stores_bearer_witness :
    is2xx (srvOk 0).status_code = true ∧
    init 1 srvOk "PK" "SK" =
      (Outcome.ok (),
       { initSt "PK" "SK" with
         headers := [("Authorization", "Bearer " ++ jstr (JsonVal.str "T"))] },
       [⟨"POST", (initSt "PK" "SK").base_url ++ "/auth", [], [("public_key", "PK")], [],
         none⟩]) :=
  ⟨by decide,
   (c6_init_one_auth_call_stores_bearer 0 srvOk "PK" "SK" (JsonVal.str "T")
     (by decide) (by decide)).1⟩

/-- C7: a successful `_nova_tarefa` resets the uploaded-file list to empty and
overwrites the tool name, the task id and the processing-server url with the newly
obtained values — whatever task state the session previously held, so the session
carries at most the one fresh task afterwards. -/
theorem c7_nova_tarefa_resets_task_state (fuel : Nat) (srv : Server) (st : St)
    (tr : Trace) (tool : String) (resp : Response) (stR : St) (trR : Trace)
    (sv tk : JsonVal)
    (hreq : realizar_request fuel srv { st with arquivos := some [], tarefa := some tool }
        tr "GET" (st.base_url ++ "/start/" ++ tool) kw0 = (Outcome.ok resp, stR, trR))
    (hsv : List.lookup "server" resp.jbody = some sv)
    (htk : List.lookup "task" resp.jbody = some tk) :
    nova_tarefa fuel srv st tr tool =
      (Outcome.ok (),
       { stR with tarefa_id := some (jstr tk),
                  servidor_url := some ("https://" ++ jstr sv ++ "/v1") }, trR) ∧
    stR.arquivos = some [] ∧ stR.tarefa = some tool := by
  have hf := realizar_request_fields fuel srv
    { st with arquivos := some [], tarefa := some tool } tr "GET"
    (st.base_url ++ "/start/" ++ tool) kw0
  rw [hreq] at hf
  simp only at hf
  refine ⟨?_, by simpa using hf.2.2.2.1, by simpa using hf.2.2.2.2.1⟩
  simp [nova_tarefa, hreq, hsv, htk]

/-- Witness for C7: the stale task and file list of `stDirty` are overwritten. -/
theorem c7_nova_tarefa_resets_task_state_witness :
    stDirty.arquivos = some [⟨"old_sf", "old.pdf"⟩] ∧
    nova_tarefa 1 srvStart stDirty [] "compress" =
      (Outcome.ok (),
       { stReset with tarefa_id := some (jstr (JsonVal.str "t2")),
                      servidor_url := some ("https://" ++ jstr (JsonVal.str "s2") ++ "/v1") },
       [mkReq stReset "GET" (stDirty.base_url ++ "/start/" ++ "compress") kw0]) :=
  ⟨by decide,
   (c7_nova_tarefa_resets_task_state 1 srvStart stDirty [] "compress"
     ⟨200, [("server", JsonVal.str "s2"), ("task", JsonVal.str "t2")], []⟩ stReset
     [mkReq stReset "GET" (stDirty.base_url ++ "/start/" ++ "compress") kw0]
     (JsonVal.str "s2") (JsonVal.str "t2") (by decide) (by decide) (by decide)).1⟩

/-- C8: a successful `_download` with output path `q` writes at `q` exactly the bytes
of the server's response body for `GET {servidor_url}/download/{tarefa_id}`,
shadowing (overwriting) whatever the filesystem previously held at `q`. -/
theorem c8_download_writes_response_bytes (fuel : Nat) (srv : Server) (st : St)
    (tr : Trace) (fs : Fs) (q surl tid : String) (resp : Response) (stR : St) (trR : Trace)
    (hsu : st.servidor_url = some surl) (hti : st.tarefa_id = some tid)
    (hreq : realizar_request fuel srv st tr "GET" (surl ++ "/download/" ++ tid) kw0 =
      (Outcome.ok resp, stR, trR)) :
    download fuel srv st tr fs q = (Outcome.ok (), stR, trR, writeFs fs q resp.content) ∧
    readFs (writeFs fs q resp.content) q = some resp.content := by
  constructor
  · simp [download, hsu, hti, hreq]
  · simp [readFs, writeFs]

/-- Witness for C8: the downloaded bytes land at the (pre-existing) output path. -/
theorem c8_download_writes_response_bytes_witness :
    stStarted.tarefa_id = some "task1" ∧
    download 1 srvDl stStarted [] [("out.pdf", [0])] "out.pdf" =
      (Outcome.ok (), stStarted,
       [mkReq stStarted "GET" ("https://srv1/v1" ++ "/download/" ++ "task1") kw0],
       writeFs [("out.pdf", [0])] "out.pdf" [9, 9, 9]) ∧
    readFs (writeFs [("out.pdf", [0])] "out.pdf" [9, 9, 9]) "out.pdf" = some [9, 9, 9] :=
  ⟨by decide,
   (c8_download_writes_response_bytes 1 srvDl stStarted [] [("out.pdf", [0])] "out.pdf"
     "https://srv1/v1" "task1" ⟨200, [], [9, 9, 9]⟩ stStarted
     [mkReq stStarted "GET" ("https://srv1/v1" ++ "/download/" ++ "task1") kw0]
     (by decide) (by decide) (by decide)).1,
   (c8_download_writes_response_bytes 1 srvDl stStarted [] [("out.pdf", [0])] "out.pdf"
     "https://srv1/v1" "task1" ⟨200, [], [9, 9, 9]⟩ stStarted
     [mkReq stStarted "GET" ("https://srv1/v1" ++ "/download/" ++ "task1") kw0]
     (by decide) (by decide) (by decide)).2⟩

/-- C10: `_download` opens the output file only after the HTTP request has returned
successfully, so when the request raises (a non-2xx failure not recovered by the 401
path), the filesystem is left exactly as it was: the output path is neither created
nor modified. -/
theorem c10_download_failure_leaves_filesystem (fuel : Nat) (srv : Server) (st : St)
    (tr : Trace) (fs : Fs) (q surl tid : String) (e : PyError) (stR : St) (trR : Trace)
    (hsu : st.servidor_url = some surl) (hti : st.tarefa_id = some tid)
    (hreq : realizar_request fuel srv st tr "GET" (surl ++ "/download/" ++ tid) kw0 =
      (Outcome.err e, stR, trR)) :
    download fuel srv st tr fs q = (Outcome.err e, stR, trR, fs) := by
  simp [download, hsu, hti, hreq]

/-- Witness for C10: a 500 answer leaves the pre-existing output file untouched. -/
theorem c10_download_failure_leaves_filesystem_witness :
    is2xx (srv500 0).status_code = false ∧
    download 1 srv500 stStarted [] [("out.pdf", [0])] "out.pdf" =
      (Outcome.err (PyError.httpError ⟨500, [("status", JsonVal.num 500)], []⟩), stStarted,
       [mkReq stStarted "GET" ("https://srv1/v1" ++ "/download/" ++ "task1") kw0],
       [("out.pdf", [0])]) :=
  ⟨by decide,
   c10_download_failure_leaves_filesystem 1 srv500 stStarted [] [("out.pdf", [0])]
     "out.pdf" "https://srv1/v1" "task1"
     (PyError.httpError ⟨500, [("status", JsonVal.num 500)], []⟩) stStarted
     [mkReq stStarted "GET" ("https://srv1/v1" ++ "/download/" ++ "task1") kw0]
     (by decide) (by decide) (by decide)⟩

/-- C9: the secret key never influences any outgoing HTTP request: for sessions
that differ only in the stored secret key, construction and every operation return
the same outcome, issue identical request sequences (the auth body carries only the
public key), and leave identical filesystems. -/
theorem c9_secret_key_noninterference (fuel : Nat) (srv : Server) (pk sk1 sk2 : String)
    (st : St) (tr : Trace) (fs : Fs) (tool arquivo outp : String)
    (kwargs : List (String × JsonVal)) (aout : Option String) :
    ((init fuel srv pk sk1).1 = (init fuel srv pk sk2).1 ∧
     (init fuel srv pk sk1).2.2 = (init fuel srv pk sk2).2.2) ∧
    ((nova_tarefa fuel srv (setSecret st sk1) tr tool).1 =
       (nova_tarefa fuel srv (setSecret st sk2) tr tool).1 ∧
     (nova_tarefa fuel srv (setSecret st sk1) tr tool).2.2 =
       (nova_tarefa fuel srv (setSecret st sk2) tr tool).2.2) ∧
    ((adicionar_arquivo fuel srv (setSecret st sk1) tr fs arquivo).1 =
       (adicionar_arquivo fuel srv (setSecret st sk2) tr fs arquivo).1 ∧
     (adicionar_arquivo fuel srv (setSecret st sk1) tr fs arquivo).2.2 =
       (adicionar_arquivo fuel srv (setSecret st sk2) tr fs arquivo).2.2) ∧
    ((processar fuel srv (setSecret st sk1) tr kwargs).1 =
       (processar fuel srv (setSecret st sk2) tr kwargs).1 ∧
     (processar fuel srv (setSecret st sk1) tr kwargs).2.2 =
       (processar fuel srv (setSecret st sk2) tr kwargs).2.2) ∧
    ((download fuel srv (setSecret st sk1) tr fs outp).1 =
       (download fuel srv (setSecret st sk2) tr fs outp).1 ∧
     (download fuel srv (setSecret st sk1) tr fs outp).2.2.1 =
       (download fuel srv (setSecret st sk2) tr fs outp).2.2.1 ∧
     (download fuel srv (setSecret st sk1) tr fs outp).2.2.2 =
       (download fuel srv (setSecret st sk2) tr fs outp).2.2.2) ∧
    ((comprimir fuel srv (setSecret st sk1) tr fs arquivo aout).1 =
       (comprimir fuel srv (setSecret st sk2) tr fs arquivo aout).1 ∧
     (comprimir fuel srv (setSecret st sk1) tr fs arquivo aout).2.2.1 =
       (comprimir fuel srv (setSecret st sk2) tr fs arquivo aout).2.2.1 ∧
     (comprimir fuel srv (setSecret st sk1) tr fs arquivo aout).2.2.2 =
       (comprimir fuel srv (setSecret st sk2) tr fs arquivo aout).2.2.2) := by
  refine ⟨⟨?_, ?_⟩, ⟨?_, ?_⟩, ⟨?_, ?_⟩, ⟨?_, ?_⟩, ⟨?_, ?_, ?_⟩, ⟨?_, ?_, ?_⟩⟩
  · simp only [init]
    rw [← initSt_setSecret pk sk2 sk1, novo_token_setSecret]
  · simp only [init]
    rw [← initSt_setSecret pk sk2 sk1, novo_token_setSecret]
  · rw [nova_tarefa_setSecret fuel srv st tr tool sk1,
      nova_tarefa_setSecret fuel srv st tr tool sk2]
  · rw [nova_tarefa_setSecret fuel srv st tr tool sk1,
      nova_tarefa_setSecret fuel srv st tr tool sk2]
  · rw [adicionar_arquivo_setSecret fuel srv st tr fs arquivo sk1,
      adicionar_arquivo_setSecret fuel srv st tr fs arquivo sk2]
  · rw [adicionar_arquivo_setSecret fuel srv st tr fs arquivo sk1,
      adicionar_arquivo_setSecret fuel srv st tr fs arquivo sk2]
  · rw [processar_setSecret fuel srv st tr kwargs sk1,
      processar_setSecret fuel srv st tr kwargs sk2]
  · rw [processar_setSecret fuel srv st tr kwargs sk1,
      processar_setSecret fuel srv st tr kwargs sk2]
  · rw [download_setSecret fuel srv st tr fs outp sk1,
      download_setSecret fuel srv st tr fs outp sk2]
  · rw [download_setSecret fuel srv st tr fs outp sk1,
      download_setSecret fuel srv st tr fs outp sk2]
  · rw [download_setSecret fuel srv st tr fs outp sk1,
      download_setSecret fuel srv st tr fs outp sk2]
  · rw [comprimir_setSecret fuel srv st tr fs arquivo aout sk1,
      comprimir_setSecret fuel srv st tr fs arquivo aout sk2]
  · rw [comprimir_setSecret fuel srv st tr fs arquivo aout sk1,
      comprimir_setSecret fuel srv st tr fs arquivo aout sk2]
  · rw [comprimir_setSecret fuel srv st tr fs arquivo aout sk1,
      comprimir_setSecret fuel srv st tr fs arquivo aout sk2]

end ILovePdf
